import Mathlib

/-!
Verification model of the tidy3d mode-solver web client
(`src/tidy3d/web/api/mode.py`).  The effectful Python code is shallowly
embedded as pure Lean functions: network calls and filesystem operations
become explicit event traces and explicit filesystem state, exceptions
become `Except`, and the results of remote calls (poll statuses, download
outcomes) are supplied as oracle parameters.
-/

namespace Tidy3d

/-- Fixed artifact name `simulation.json` (module constant in `mode.py`). -/
def SIMULATION_JSON : String := "simulation.json"

/-- Fixed artifact name `simulation.hdf5.gz`. -/
def SIM_FILE_HDF5_GZ : String := "simulation.hdf5.gz"

/-- Base API path for the mode solver endpoints. -/
def MODESOLVER_API : String := "tidy3d/modesolver/py"

/-- Fixed artifact name `mode_solver.json`. -/
def MODESOLVER_JSON : String := "mode_solver.json"

/-- Fixed artifact name `mode_solver.hdf5`. -/
def MODESOLVER_HDF5 : String := "mode_solver.hdf5"

/-- Fixed artifact name `mode_solver.hdf5.gz`. -/
def MODESOLVER_GZ : String := "mode_solver.hdf5.gz"

/-- Fixed remote log path `output/result.log`. -/
def MODESOLVER_LOG : String := "output/result.log"

/-- Fixed uncompressed result artifact name `output/result.hdf5`. -/
def MODESOLVER_RESULT : String := "output/result.hdf5"

/-- Fixed compressed result artifact name `output/mode_solver_data.hdf5.gz`. -/
def MODESOLVER_RESULT_GZ : String := "output/mode_solver_data.hdf5.gz"

/-- Terminal statuses of the poll loop in `run`
(`status not in ("success", "error", "diverged", "deleted")`). -/
def isTerminal (s : String) : Bool :=
  s == "success" || s == "error" || s == "diverged" || s == "deleted"

/-- The status log line emitted by `run` (`f"Mode solver status: {status}"`,
with the braces expanded). -/
def statusLine (s : String) : String := "Mode solver status: " ++ s

/-- Model of the poll loop of `run` (mode.py lines 114-123).  `prev` is the
`prev_status` variable (initially `"draft"`), `status` the current status,
and `polls` the oracle of statuses returned by the successive
`task.get_info().status` calls.  Returns the terminal status, the list of
status log lines emitted inside the loop, and the number of `get_info`
calls made; `none` means the oracle list was exhausted before a terminal
status was observed (the Python loop is unbounded). -/
def pollLoop : String → String → List String → Option (String × List String × Nat)
  | _, status, [] =>
    if isTerminal status then some (status, [], 0) else none
  | prev, status, s :: rest =>
    if isTerminal status then some (status, [], 0)
    else
      let logged : List String := if status = prev then [] else [statusLine status]
      let prevNext : String := if status = prev then prev else status
      match pollLoop prevNext s rest with
      | none => none
      | some (fin, logs, calls) => some (fin, logged ++ logs, calls + 1)

/-- Removes consecutive duplicates relative to a previous value: the distinct
status transitions of a sequence, as seen from starting value `prev`. -/
def destutter : String → List String → List String
  | _, [] => []
  | prev, s :: rest =>
    if s = prev then destutter prev rest else s :: destutter s rest

/-- Outcome of the `run` orchestration. -/
inductive RunOutcome where
  | raisedWebError (msg : String)
  | noResult
  | gotResult
deriving DecidableEq, Repr

/-- Observable trace of one `run` call: final status, all status log lines,
number of `get_info` calls, whether `get_result` was invoked, and whether a
result was cached into the payload (`_cached_properties` assignment, which
happens only inside `get_result`). -/
structure RunTrace where
  finalStatus : String
  statusLogs : List String
  getInfoCalls : Nat
  getResultCalled : Bool
  cachedResultIntoPayload : Bool
  outcome : RunOutcome
deriving DecidableEq, Repr

/-- Model of `run` after upload and submit (mode.py lines 113-138).
`initStatus` is `task.status` as set by the create response; `polls` is the
oracle of statuses returned by successive `get_info` calls.  On `"error"` a
`WebError` is raised before the final status line is logged; on any other
non-success terminal the `None` sentinel is returned without calling
`get_result`; on `"success"` the result is fetched by `get_result`, which
caches it into the payload. -/
def runModel (initStatus : String) (polls : List String) : Option RunTrace :=
  match pollLoop "draft" initStatus polls with
  | none => none
  | some (fin, logs, calls) =>
    if fin = "error" then
      some ⟨fin, logs, calls, false, false, .raisedWebError "Error running mode solver."⟩
    else
      let logsAll := logs ++ [statusLine fin]
      if fin = "success" then
        some ⟨fin, logsAll, calls, true, true, .gotResult⟩
      else
        some ⟨fin, logsAll, calls, false, false, .noResult⟩

theorem pollLoop_spec :
    ∀ (polls : List String) (prev status fin : String) (logs : List String) (calls : Nat),
    pollLoop prev status polls = some (fin, logs, calls) →
    calls = ((status :: polls).takeWhile (fun s => !isTerminal s)).length ∧
    logs = (destutter prev ((status :: polls).takeWhile (fun s => !isTerminal s))).map statusLine ∧
    isTerminal fin = true ∧
    (status :: polls).getD calls "" = fin := by
  intro polls
  induction polls with
  | nil =>
    intro prev status fin logs calls h
    simp only [pollLoop] at h
    by_cases ht : isTerminal status
    · simp [ht] at h
      obtain ⟨h1, h2, h3⟩ := h
      subst h1 h2 h3
      simp [List.takeWhile, ht, destutter]
    · simp [ht] at h
  | cons s rest ih =>
    intro prev status fin logs calls h
    simp only [pollLoop] at h
    by_cases ht : isTerminal status
    · simp [ht] at h
      obtain ⟨h1, h2, h3⟩ := h
      subst h1 h2 h3
      simp [List.takeWhile, ht, destutter]
    · rw [if_neg ht] at h
      by_cases hsp : status = prev
      · subst hsp
        simp only [eq_self_iff_true, ite_true] at h
        cases hrec : pollLoop status s rest with
        | none => rw [hrec] at h; simp at h
        | some v =>
          obtain ⟨fin0, logs0, calls0⟩ := v
          rw [hrec] at h
          simp at h
          obtain ⟨h1, h2, h3⟩ := h
          obtain ⟨hc, hl, hterm, hget⟩ := ih status s fin0 logs0 calls0 hrec
          subst h1 h2 h3
          refine ⟨?_, ?_, hterm, ?_⟩
          · simp [List.takeWhile_cons, ht, hc]
          · simp [List.takeWhile_cons, destutter, ht, hl]
          · simpa using hget
      · rw [if_neg hsp, if_neg hsp] at h
        cases hrec : pollLoop status s rest with
        | none => rw [hrec] at h; simp at h
        | some v =>
          obtain ⟨fin0, logs0, calls0⟩ := v
          rw [hrec] at h
          simp at h
          obtain ⟨h1, h2, h3⟩ := h
          obtain ⟨hc, hl, hterm, hget⟩ := ih status s fin0 logs0 calls0 hrec
          subst h1 h2 h3
          refine ⟨?_, ?_, hterm, ?_⟩
          · simp [List.takeWhile_cons, ht, hc]
          · simp [List.takeWhile_cons, destutter, ht, hsp, hl]
          · simpa using hget

/-- C1: in the `run` orchestration, polling stops at the first observation of
a terminal status (the number of `get_info` calls equals the length of the
non-terminal prefix of the observed status sequence, so `get_info` is never
called after the first terminal observation), and a status log line is
emitted exactly once per distinct status change — the destuttered list of
transitions — never once per poll tick, so N consecutive equal values yield
one line; the terminal status itself is logged once after the loop except
when it is "error", where the WebError is raised first. -/
theorem c1_run_polls_until_terminal_and_logs_once_per_change
    (initStatus : String) (polls : List String) (t : RunTrace)
    (h : runModel initStatus polls = some t) :
    t.getInfoCalls = ((initStatus :: polls).takeWhile (fun s => !isTerminal s)).length ∧
    isTerminal t.finalStatus = true ∧
    (initStatus :: polls).getD t.getInfoCalls "" = t.finalStatus ∧
    t.statusLogs =
      (destutter "draft" ((initStatus :: polls).takeWhile (fun s => !isTerminal s))).map statusLine
        ++ (if t.finalStatus = "error" then [] else [statusLine t.finalStatus]) := by
  unfold runModel at h
  cases hp : pollLoop "draft" initStatus polls with
  | none => rw [hp] at h; simp at h
  | some v =>
    obtain ⟨fin, logs, calls⟩ := v
    simp only [hp] at h
    obtain ⟨hc, hl, hterm, hget⟩ := pollLoop_spec polls "draft" initStatus fin logs calls hp
    by_cases he : fin = "error"
    · rw [if_pos he] at h
      injection h with h
      subst h
      refine ⟨hc, hterm, hget, ?_⟩
      simp [he, hl]
    · rw [if_neg he] at h
      by_cases hs : fin = "success"
      · subst hs
        rw [if_pos rfl] at h
        injection h with h
        subst h
        refine ⟨hc, hterm, hget, ?_⟩
        simp [he, hl]
      · rw [if_neg hs] at h
        injection h with h
        subst h
        refine ⟨hc, hterm, hget, ?_⟩
        simp [he, hl]

/-- Witness for C1 at a concrete five-observation status sequence with a
repeated "running" value: four `get_info` calls, one log line per distinct
change only. -/
theorem c1_run_polls_witness :
    RunTrace.getInfoCalls
        ⟨"success", [statusLine "queued", statusLine "running", statusLine "success"],
          4, true, true, RunOutcome.gotResult⟩ =
      ((["draft", "queued", "running", "running", "success"].takeWhile
          (fun s => !isTerminal s)).length) ∧
    isTerminal "success" = true ∧
    (["draft", "queued", "running", "running", "success"] : List String).getD 4 "" = "success" ∧
    [statusLine "queued", statusLine "running", statusLine "success"] =
      (destutter "draft"
          (["draft", "queued", "running", "running", "success"].takeWhile
            (fun s => !isTerminal s))).map statusLine
        ++ (if "success" = "error" then [] else [statusLine "success"]) :=
  c1_run_polls_until_terminal_and_logs_once_per_change "draft"
    ["queued", "running", "running", "success"]
    ⟨"success", [statusLine "queued", statusLine "running", statusLine "success"],
      4, true, true, RunOutcome.gotResult⟩ (by decide)

/-- C4: if polling ends with status "error", the run orchestration raises the
definite WebError "Error running mode solver." and never calls `get_result`,
so no artifact download is attempted. -/
theorem c4_error_status_raises_without_download
    (initStatus : String) (polls : List String) (t : RunTrace)
    (h : runModel initStatus polls = some t) (he : t.finalStatus = "error") :
    t.outcome = RunOutcome.raisedWebError "Error running mode solver." ∧
    t.getResultCalled = false ∧ t.cachedResultIntoPayload = false := by
  unfold runModel at h
  cases hp : pollLoop "draft" initStatus polls with
  | none => rw [hp] at h; simp at h
  | some v =>
    obtain ⟨fin, logs, calls⟩ := v
    simp only [hp] at h
    by_cases hfe : fin = "error"
    · subst hfe
      rw [if_pos rfl] at h
      injection h with h
      subst h
      exact ⟨rfl, rfl, rfl⟩
    · rw [if_neg hfe] at h
      by_cases hs : fin = "success"
      · subst hs
        rw [if_pos rfl] at h
        injection h with h
        subst h
        exact absurd (show ("success" : String) = "error" from he) (by decide)
      · rw [if_neg hs] at h
        injection h with h
        subst h
        exact absurd he hfe

/-- Witness for C4: a single poll returning "error" yields the raised
WebError outcome with no `get_result` call. -/
theorem c4_error_status_witness :
    RunTrace.outcome
        ⟨"error", [], 1, false, false, RunOutcome.raisedWebError "Error running mode solver."⟩ =
      RunOutcome.raisedWebError "Error running mode solver." ∧
    RunTrace.getResultCalled
        ⟨"error", [], 1, false, false, RunOutcome.raisedWebError "Error running mode solver."⟩ =
      false ∧
    RunTrace.cachedResultIntoPayload
        ⟨"error", [], 1, false, false, RunOutcome.raisedWebError "Error running mode solver."⟩ =
      false :=
  c4_error_status_raises_without_download "draft" ["error"]
    ⟨"error", [], 1, false, false, RunOutcome.raisedWebError "Error running mode solver."⟩
    (by decide) rfl

/-- C5: if polling ends with terminal status "diverged" or "deleted", the run
orchestration returns the sentinel (outcome `noResult`, the Python `None`)
rather than raising, does not call `get_result`, and caches nothing into the
payload, so a later call with the same Task Record can re-attempt
retrieval. -/
theorem c5_diverged_deleted_returns_sentinel_without_caching
    (initStatus : String) (polls : List String) (t : RunTrace)
    (h : runModel initStatus polls = some t)
    (hd : t.finalStatus = "diverged" ∨ t.finalStatus = "deleted") :
    t.outcome = RunOutcome.noResult ∧
    t.getResultCalled = false ∧ t.cachedResultIntoPayload = false := by
  unfold runModel at h
  cases hp : pollLoop "draft" initStatus polls with
  | none => rw [hp] at h; simp at h
  | some v =>
    obtain ⟨fin, logs, calls⟩ := v
    simp only [hp] at h
    by_cases hfe : fin = "error"
    · subst hfe
      rw [if_pos rfl] at h
      injection h with h
      subst h
      rcases hd with hd | hd
      · exact absurd (show ("error" : String) = "diverged" from hd) (by decide)
      · exact absurd (show ("error" : String) = "deleted" from hd) (by decide)
    · rw [if_neg hfe] at h
      by_cases hs : fin = "success"
      · subst hs
        rw [if_pos rfl] at h
        injection h with h
        subst h
        rcases hd with hd | hd
        · exact absurd (show ("success" : String) = "diverged" from hd) (by decide)
        · exact absurd (show ("success" : String) = "deleted" from hd) (by decide)
      · rw [if_neg hs] at h
        injection h with h
        subst h
        exact ⟨rfl, rfl, rfl⟩

/-- Witness for C5: a single poll returning "deleted" yields the sentinel
outcome with no `get_result` call and no caching. -/
theorem c5_diverged_deleted_witness :
    RunTrace.outcome
        ⟨"deleted", [statusLine "deleted"], 1, false, false, RunOutcome.noResult⟩ =
      RunOutcome.noResult ∧
    RunTrace.getResultCalled
        ⟨"deleted", [statusLine "deleted"], 1, false, false, RunOutcome.noResult⟩ = false ∧
    RunTrace.cachedResultIntoPayload
        ⟨"deleted", [statusLine "deleted"], 1, false, false, RunOutcome.noResult⟩ = false :=
  c5_diverged_deleted_returns_sentinel_without_caching "draft" ["deleted"]
    ⟨"deleted", [statusLine "deleted"], 1, false, false, RunOutcome.noResult⟩
    (by decide) (Or.inr rfl)

/-- Response keys consumed by the declared fields of `ModeSolverTask` via
their pydantic aliases: `refId` (task_id), `id` (solver_id), `charge`
(real_flex_unit), `createdAt` (created_at), `status`, `fileType`
(file_type). -/
def knownRespKeys : List String :=
  ["refId", "id", "charge", "createdAt", "status", "fileType"]

/-- Model of the `ModeSolverTask` pydantic record (mode.py lines 141-183).
Declared fields default to `None` (here `none`); field values are modelled
as strings.  The payload (`mode_solver` field) is modelled by the identity
of the in-memory object, a `Nat` token, since the Python record stores a
reference.  The class is declared with `extra=pydantic.Extra.allow`, so
response keys outside the declared schema are kept as dynamic attributes,
modelled by the `extra` association list. -/
structure TaskRecord where
  task_id : Option String
  solver_id : Option String
  real_flex_unit : Option String
  created_at : Option String
  status : Option String
  file_type : Option String
  mode_solver : Option Nat
  extra : List (String × String)
deriving DecidableEq, Repr

/-- Model of constructing `ModeSolverTask(**resp, mode_solver=ms)` from a
server response `resp`: declared fields are populated through their aliases
and every unknown key is retained in `extra` (pydantic `Extra.allow`); the
construction is total, never rejecting a response for carrying extra
fields. -/
def mkTaskRecord (resp : List (String × String)) (ms : Option Nat) : TaskRecord :=
  { task_id := resp.lookup "refId"
    solver_id := resp.lookup "id"
    real_flex_unit := resp.lookup "charge"
    created_at := resp.lookup "createdAt"
    status := resp.lookup "status"
    file_type := resp.lookup "fileType"
    mode_solver := ms
    extra := resp.filter (fun kv => !(knownRespKeys.contains kv.1)) }

/-- Model of `ModeSolverTask.get_info` (mode.py lines 268-278): one GET of
the current record, then `ModeSolverTask(**resp, mode_solver=self.mode_solver)`
— a fresh record built from the response, carrying the same in-memory
payload object as the receiver. -/
def getInfoModel (t : TaskRecord) (resp : List (String × String)) : TaskRecord :=
  mkTaskRecord resp t.mode_solver

/-- C9: `get_info` returns a fresh record whose declared fields come from the
server response while its `mode_solver` field is the very same in-memory
payload object (same identity token) as the original record; the original
record is not mutated (the model is a pure function of `t`, which is
returned unchanged to every other observer). -/
theorem c9_get_info_preserves_payload_object
    (t : TaskRecord) (resp : List (String × String)) :
    (getInfoModel t resp).mode_solver = t.mode_solver ∧
    (getInfoModel t resp).status = resp.lookup "status" ∧
    (getInfoModel t resp).task_id = resp.lookup "refId" ∧
    (getInfoModel t resp).solver_id = resp.lookup "id" :=
  ⟨rfl, rfl, rfl, rfl⟩

/-- C10: constructing a Task Record from a server response containing fields
beyond the declared schema succeeds (the constructor is total) and retains
each extra field as an attribute of the record; the declared fields are
still populated from their aliases. -/
theorem c10_extra_response_fields_retained
    (resp : List (String × String)) (ms : Option Nat) (k v : String)
    (hmem : (k, v) ∈ resp) (hunknown : knownRespKeys.contains k = false) :
    (k, v) ∈ (mkTaskRecord resp ms).extra ∧
    (mkTaskRecord resp ms).task_id = resp.lookup "refId" := by
  refine ⟨?_, rfl⟩
  simp only [mkTaskRecord, List.mem_filter]
  exact ⟨hmem, by rw [Bool.not_eq_true']; exact hunknown⟩

/-- Witness for C10: a response with known fields and an unknown key
"solverVersion" keeps the unknown pair in `extra`. -/
theorem c10_extra_fields_witness :
    ("solverVersion", "2.7") ∈
      (mkTaskRecord [("refId", "tid-1"), ("id", "sid-1"), ("solverVersion", "2.7")]
        (some 0)).extra ∧
    (mkTaskRecord [("refId", "tid-1"), ("id", "sid-1"), ("solverVersion", "2.7")]
        (some 0)).task_id =
      ([("refId", "tid-1"), ("id", "sid-1"), ("solverVersion", "2.7")] :
        List (String × String)).lookup "refId" :=
  c10_extra_response_fields_retained
    [("refId", "tid-1"), ("id", "sid-1"), ("solverVersion", "2.7")] (some 0)
    "solverVersion" "2.7" (by decide) (by decide)

/-- One HTTP request of the abort call, as issued by
`http.put("tidy3d/tasks/abort", json=...)`. -/
structure AbortRequest where
  verb : String
  path : String
  taskType : String
  taskId : String
deriving DecidableEq, Repr

/-- Model of `ModeSolverTask.abort` (mode.py lines 344-348): a single PUT to
the fixed abort endpoint whose body carries `taskType "MODE_SOLVER"` and
`taskId self.solver_id`. -/
def abortModel (t : TaskRecord) : List AbortRequest :=
  [⟨"PUT", "tidy3d/tasks/abort", "MODE_SOLVER", t.solver_id.getD ""⟩]

/-- C8: for every Task Record, `abort` issues exactly one PUT request, to the
fixed endpoint "tidy3d/tasks/abort", with body taskType "MODE_SOLVER" and
taskId equal to the record's solver_id — not its task_id whenever the two
identifiers differ. -/
theorem c8_abort_single_put_uses_solver_id
    (t : TaskRecord) (sid : String)
    (hsid : t.solver_id = some sid) (hne : t.task_id ≠ some sid) :
    abortModel t = [⟨"PUT", "tidy3d/tasks/abort", "MODE_SOLVER", sid⟩] ∧
    ∀ r ∈ abortModel t, some r.taskId ≠ t.task_id := by
  constructor
  · simp [abortModel, hsid]
  · intro r hr
    simp only [abortModel, List.mem_singleton] at hr
    subst hr
    simp only [hsid, Option.getD_some]
    exact fun hcontra => hne hcontra.symm

/-- Witness for C8 at a concrete record whose task_id and solver_id
differ. -/
theorem c8_abort_witness :
    abortModel
        ⟨some "tid-9", some "sid-9", none, none, none, none, none, []⟩ =
      [⟨"PUT", "tidy3d/tasks/abort", "MODE_SOLVER", "sid-9"⟩] ∧
    ∀ r ∈ abortModel ⟨some "tid-9", some "sid-9", none, none, none, none, none, []⟩,
      some r.taskId ≠
        TaskRecord.task_id ⟨some "tid-9", some "sid-9", none, none, none, none, none, []⟩ :=
  c8_abort_single_put_uses_solver_id
    ⟨some "tid-9", some "sid-9", none, none, none, none, none, []⟩ "sid-9"
    rfl (by decide)

/-- A remote request issued during `ModeSolverTask.create`: the folder
resolution performed by `Folder.get(folder_name, create=True)` against the
Resource Registry, or the task-creation POST to the mode solver API. -/
inductive CreateEvent where
  | folderGet (folderName : String)
  | createPost (path : String) (fileType : String)
deriving DecidableEq, Repr

/-- Local validation behavior of the payload passed to `create`, supplied as
an oracle: whether `mode_solver.validate_pre_upload()` succeeds and whether
`mode_solver.simulation.validate_pre_upload(source_required=False)`
succeeds.  `payloadId` is the identity token of the in-memory payload. -/
structure PayloadChecks where
  payloadId : Nat
  validPreUpload : Bool
  simValidPreUpload : Bool
deriving DecidableEq, Repr

/-- Model of `ModeSolverTask.create` (mode.py lines 185-229), in source
order: first `Folder.get(folder_name, create=True)` — a remote call to the
Resource Registry — then the two local validations, then the creation POST
with fileType "Gz", then `ModeSolverTask(**resp, mode_solver=mode_solver)`.
A failing validation raises before the POST but after the folder
resolution. -/
def createModel (ms : PayloadChecks) (folderName : String)
    (resp : List (String × String)) :
    List CreateEvent × Except String TaskRecord :=
  let evs := [CreateEvent.folderGet folderName]
  if ms.validPreUpload = false then
    (evs, Except.error "validation error")
  else if ms.simValidPreUpload = false then
    (evs, Except.error "validation error")
  else
    (evs ++ [CreateEvent.createPost MODESOLVER_API "Gz"],
      Except.ok (mkTaskRecord resp (some ms.payloadId)))

/-- Counterexample to C2 as stated: for a payload failing local validation,
`create` raises the validation error but a remote request — the folder
resolution — has already been issued, because `Folder.get` (mode.py line
211) runs before `validate_pre_upload` (line 213).  So it is not the case
that no remote request including folder resolution is made. -/
theorem c2_create_counterexample :
    (createModel ⟨0, false, true⟩ "Mode Solver" []).2 = Except.error "validation error" ∧
    (createModel ⟨0, false, true⟩ "Mode Solver" []).1 = [CreateEvent.folderGet "Mode Solver"] ∧
    (createModel ⟨0, false, true⟩ "Mode Solver" []).1 ≠ [] :=
  ⟨rfl, rfl, by simp [createModel]⟩

/-- C2 amended: for every payload that fails local structural validation,
`create` raises the validation error synchronously and the task-creation
POST is never issued; however the folder-resolution remote call is issued
first, and it is the only remote request made. -/
theorem c2_create_validation_precedes_create_post
    (ms : PayloadChecks) (folderName : String) (resp : List (String × String))
    (hinvalid : ms.validPreUpload = false ∨ ms.simValidPreUpload = false) :
    (createModel ms folderName resp).2 = Except.error "validation error" ∧
    (∀ p ft, CreateEvent.createPost p ft ∉ (createModel ms folderName resp).1) ∧
    (createModel ms folderName resp).1 = [CreateEvent.folderGet folderName] := by
  rcases hinvalid with h | h
  · simp [createModel, h]
  · by_cases h2 : ms.validPreUpload = false
    · simp [createModel, h2]
    · simp [createModel, h2, h]

/-- Witness for the amended C2 at a payload whose simulation-level
validation fails. -/
theorem c2_create_validation_witness :
    (createModel ⟨1, true, false⟩ "flow" []).2 = Except.error "validation error" ∧
    (∀ p ft, CreateEvent.createPost p ft ∉ (createModel ⟨1, true, false⟩ "flow" []).1) ∧
    (createModel ⟨1, true, false⟩ "flow" []).1 = [CreateEvent.folderGet "flow"] :=
  c2_create_validation_precedes_create_post ⟨1, true, false⟩ "flow" [] (Or.inr rfl)

/-- Outcome of one artifact-store download attempt, supplied as an oracle:
`ok` means the call returns the downloaded file path; `clientError` is the
botocore `ClientError` that the artifact store raises for an absent remote
object (the "object not found" class caught at mode.py line 467);
`otherError` is any other exception. -/
inductive DlOutcome where
  | ok
  | clientError (msg : String)
  | otherError (msg : String)
deriving DecidableEq, Repr

/-- One download attempt made by `get_result`: the compressed-archive
attempt (`download_gz_file`) or the uncompressed attempt
(`download_file`). -/
inductive DlEvent where
  | downloadGz (resourceId remoteName : String)
  | downloadPlain (resourceId remoteName : String)
deriving DecidableEq, Repr

/-- Result of `get_result`: deserialized data, a raised WebError wrapping the
underlying cause of the failed fallback download, or an exception from the
first attempt propagated unchanged. -/
inductive GetResultOutcome where
  | okData
  | raisedWebError (cause : String)
  | propagated (msg : String)
deriving DecidableEq, Repr

/-- Model of `ModeSolverTask.get_result` (mode.py lines 458-485): try
`download_gz_file` of the compressed result; on `ClientError` the file stays
unset and `download_file` of the uncompressed result is attempted, any
failure of which raises a WebError wrapping the cause; any non-ClientError
exception from the first attempt propagates with no fallback.  The success
tail (deserialization, monitor enrichment, caching) is summarized as
`okData`. -/
def getResultModel (solverId : String) (first second : DlOutcome) :
    List DlEvent × GetResultOutcome :=
  match first with
  | .ok => ([.downloadGz solverId MODESOLVER_RESULT_GZ], .okData)
  | .otherError m => ([.downloadGz solverId MODESOLVER_RESULT_GZ], .propagated m)
  | .clientError _ =>
    match second with
    | .ok =>
      ([.downloadGz solverId MODESOLVER_RESULT_GZ,
        .downloadPlain solverId MODESOLVER_RESULT], .okData)
    | .clientError m =>
      ([.downloadGz solverId MODESOLVER_RESULT_GZ,
        .downloadPlain solverId MODESOLVER_RESULT], .raisedWebError m)
    | .otherError m =>
      ([.downloadGz solverId MODESOLVER_RESULT_GZ,
        .downloadPlain solverId MODESOLVER_RESULT], .raisedWebError m)

/-- C3: `get_result` attempts the compressed-archive artifact first; the
uncompressed fallback is attempted exactly when the first attempt raised the
"object not found"-class ClientError; any other failure of the first
attempt propagates without fallback; and when the fallback also fails the
result is a definite WebError wrapping the underlying cause. -/
theorem c3_get_result_gz_first_fallback_on_not_found
    (solverId : String) (first second : DlOutcome) :
    (getResultModel solverId first second).1.head? =
      some (DlEvent.downloadGz solverId MODESOLVER_RESULT_GZ) ∧
    ((∃ r n, DlEvent.downloadPlain r n ∈ (getResultModel solverId first second).1) ↔
      ∃ m, first = DlOutcome.clientError m) ∧
    (∀ m, first = DlOutcome.otherError m →
      (getResultModel solverId first second).2 = GetResultOutcome.propagated m ∧
      (getResultModel solverId first second).1 =
        [DlEvent.downloadGz solverId MODESOLVER_RESULT_GZ]) ∧
    (∀ m c, first = DlOutcome.clientError m →
      second = DlOutcome.clientError c ∨ second = DlOutcome.otherError c →
      (getResultModel solverId first second).2 = GetResultOutcome.raisedWebError c) := by
  cases first <;> cases second <;> simp [getResultModel]

/-- Witness for C3: a not-found first attempt followed by a failing fallback
raises the WebError wrapping the fallback cause, and a non-ClientError first
failure propagates with a single download attempt. -/
theorem c3_get_result_witness :
    (getResultModel "sid" (DlOutcome.clientError "NoSuchKey")
        (DlOutcome.otherError "io failure")).2 =
      GetResultOutcome.raisedWebError "io failure" ∧
    (getResultModel "sid" (DlOutcome.otherError "conn reset") DlOutcome.ok).2 =
      GetResultOutcome.propagated "conn reset" :=
  ⟨(c3_get_result_gz_first_fallback_on_not_found "sid"
        (DlOutcome.clientError "NoSuchKey") (DlOutcome.otherError "io failure")).2.2.2
      "NoSuchKey" "io failure" rfl (Or.inr rfl),
    ((c3_get_result_gz_first_fallback_on_not_found "sid"
        (DlOutcome.otherError "conn reset") DlOutcome.ok).2.2.1 "conn reset" rfl).1⟩

/-- Local filesystem state: the list of file paths currently present. -/
structure FileSys where
  files : List String
deriving DecidableEq, Repr

/-- A file comes into existence (`tempfile.mkstemp`, or a download/serialize
target being written). -/
def FileSys.createFile (fs : FileSys) (name : String) : FileSys :=
  ⟨name :: fs.files⟩

/-- A file is removed (`os.unlink`). -/
def FileSys.unlink (fs : FileSys) (name : String) : FileSys :=
  ⟨fs.files.erase name⟩

/-- Distinguished path of the temp file staged by `upload` for the display
artifact (`tempfile.mkstemp(".hdf5.gz")`, first block). -/
def tmpSimName : String := "tmp-sim.hdf5.gz"

/-- Distinguished path of the temp file staged by `upload` for the full
payload artifact (second block). -/
def tmpMsName : String := "tmp-ms.hdf5.gz"

/-- Distinguished path of the temp file used by the `Gz` branch of
`get_modesolver`. -/
def tmpGzName : String := "tmp-dl.hdf5.gz"

/-- Distinguished path of the temp file used by the `Hdf5` branch of
`get_modesolver`. -/
def tmpHdf5Name : String := "tmp-dl.hdf5"

/-- Distinguished path of the temp file used by the legacy `Json` branch of
`get_modesolver`. -/
def tmpJsonName : String := "tmp-dl.json"

/-- All temp file paths the model can stage. -/
def tempNames : List String :=
  [tmpSimName, tmpMsName, tmpGzName, tmpHdf5Name, tmpJsonName]

/-- Model of `ModeSolverTask.upload` (mode.py lines 280-324).  Two staged
blocks, each `mkstemp` / serialize / `upload_file` wrapped in
`try ... finally os.unlink`: the temp file is removed on the success and on
the exception path alike, and a failure in the first block prevents the
second block from running.  The oracle booleans say whether serialization
to the temp file and the artifact-store transfer succeed for each block. -/
def uploadModel (simSerOk simUpOk msSerOk msUpOk : Bool) (fs : FileSys) :
    Except String Unit × FileSys :=
  let fs1 := fs.createFile tmpSimName
  let body1 : Except String Unit :=
    if simSerOk = false then Except.error "to_hdf5_gz of simulation failed"
    else if simUpOk = false then Except.error "upload_file of simulation.hdf5.gz failed"
    else Except.ok ()
  let fs2 := fs1.unlink tmpSimName
  match body1 with
  | Except.error e => (Except.error e, fs2)
  | Except.ok _ =>
    let fs3 := fs2.createFile tmpMsName
    let body2 : Except String Unit :=
      if msSerOk = false then Except.error "to_hdf5_gz of mode solver failed"
      else if msUpOk = false then Except.error "upload_file of mode_solver.hdf5.gz failed"
      else Except.ok ()
    let fs4 := fs3.unlink tmpMsName
    match body2 with
    | Except.error e => (Except.error e, fs4)
    | Except.ok _ => (Except.ok (), fs4)

/-- An observable step of `get_modesolver`: staging a temp file, a download
attempt from the artifact store, an unlink, or persisting the reconstructed
payload (`mode_solver.to_file(to_file)`). -/
inductive GmsEvent where
  | mkstempEv (path : String)
  | downloadEv (resourceId remoteName toPath : String)
  | unlinkEv (path : String)
  | persistEv (path : String)
deriving DecidableEq, Repr

/-- The payload reconstructed by `get_modesolver`, tagged by provenance:
deserialized directly from the compressed archive, directly from the
uncompressed file, or merged from the solver's structural description and
the parent task's configuration (the dict's "simulation" entry is replaced
before `parse_obj`). -/
inductive Reconstructed where
  | fromGzArchive (resourceId remoteName : String)
  | fromHdf5File (resourceId remoteName : String)
  | mergedJson (solverResourceId solverRemoteName taskResourceId taskRemoteName : String)
deriving DecidableEq, Repr

/-- Model of `ModeSolverTask.get_modesolver` (mode.py lines 350-433).
Branches on `file_type`: `"Gz"` downloads the compressed archive to a temp
file and deserializes it directly; `"Hdf5"` downloads the uncompressed file
to a temp file and deserializes it directly; any other value downloads the
solver's JSON description to a temp file, then the parent task's
`simulation.json` to `simFile`, and merges the two before deserialization.
Every temp file is unlinked in a `finally`; on success the payload is
persisted to `toFile` before returning.  Oracles: `dl1ok` for the first
download, `parse1ok` for deserializing it, `dl2ok` for the second download
of the legacy branch. -/
def getModesolverModel (t : TaskRecord) (toFile simFile : String)
    (dl1ok parse1ok dl2ok : Bool) (fs : FileSys) :
    List GmsEvent × Except String Reconstructed × FileSys :=
  let sid := t.solver_id.getD ""
  let tid := t.task_id.getD ""
  if t.file_type = some "Gz" then
    let fs1 := fs.createFile tmpGzName
    if dl1ok = false then
      ([.mkstempEv tmpGzName, .downloadEv sid MODESOLVER_GZ tmpGzName, .unlinkEv tmpGzName],
        Except.error "download_file of mode_solver.hdf5.gz failed", fs1.unlink tmpGzName)
    else if parse1ok = false then
      ([.mkstempEv tmpGzName, .downloadEv sid MODESOLVER_GZ tmpGzName, .unlinkEv tmpGzName],
        Except.error "from_hdf5_gz failed", fs1.unlink tmpGzName)
    else
      ([.mkstempEv tmpGzName, .downloadEv sid MODESOLVER_GZ tmpGzName, .unlinkEv tmpGzName,
          .persistEv toFile],
        Except.ok (.fromGzArchive sid MODESOLVER_GZ),
        (fs1.unlink tmpGzName).createFile toFile)
  else if t.file_type = some "Hdf5" then
    let fs1 := fs.createFile tmpHdf5Name
    if dl1ok = false then
      ([.mkstempEv tmpHdf5Name, .downloadEv sid MODESOLVER_HDF5 tmpHdf5Name,
          .unlinkEv tmpHdf5Name],
        Except.error "download_file of mode_solver.hdf5 failed", fs1.unlink tmpHdf5Name)
    else if parse1ok = false then
      ([.mkstempEv tmpHdf5Name, .downloadEv sid MODESOLVER_HDF5 tmpHdf5Name,
          .unlinkEv tmpHdf5Name],
        Except.error "from_hdf5 failed", fs1.unlink tmpHdf5Name)
    else
      ([.mkstempEv tmpHdf5Name, .downloadEv sid MODESOLVER_HDF5 tmpHdf5Name,
          .unlinkEv tmpHdf5Name, .persistEv toFile],
        Except.ok (.fromHdf5File sid MODESOLVER_HDF5),
        (fs1.unlink tmpHdf5Name).createFile toFile)
  else
    let fs1 := fs.createFile tmpJsonName
    if dl1ok = false then
      ([.mkstempEv tmpJsonName, .downloadEv sid MODESOLVER_JSON tmpJsonName,
          .unlinkEv tmpJsonName],
        Except.error "download_file of mode_solver.json failed", fs1.unlink tmpJsonName)
    else if parse1ok = false then
      ([.mkstempEv tmpJsonName, .downloadEv sid MODESOLVER_JSON tmpJsonName,
          .unlinkEv tmpJsonName],
        Except.error "dict_from_json failed", fs1.unlink tmpJsonName)
    else if dl2ok = false then
      ([.mkstempEv tmpJsonName, .downloadEv sid MODESOLVER_JSON tmpJsonName,
          .unlinkEv tmpJsonName, .downloadEv tid SIMULATION_JSON simFile],
        Except.error "download_file of simulation.json failed", fs1.unlink tmpJsonName)
    else
      ([.mkstempEv tmpJsonName, .downloadEv sid MODESOLVER_JSON tmpJsonName,
          .unlinkEv tmpJsonName, .downloadEv tid SIMULATION_JSON simFile,
          .persistEv toFile],
        Except.ok (.mergedJson sid MODESOLVER_JSON tid SIMULATION_JSON),
        ((fs1.unlink tmpJsonName).createFile simFile).createFile toFile)

theorem uploadModel_files (a b c d : Bool) (fs : FileSys) :
    (uploadModel a b c d fs).2.files = fs.files := by
  cases a <;> cases b <;> cases c <;> cases d <;>
    simp [uploadModel, FileSys.createFile, FileSys.unlink, List.erase_cons_head]

theorem getModesolverModel_files
    (t : TaskRecord) (toFile simFile : String) (e f g : Bool) (fs : FileSys)
    (n : String)
    (h : n ∈ (getModesolverModel t toFile simFile e f g fs).2.2.files) :
    n = toFile ∨ n = simFile ∨ n ∈ fs.files := by
  unfold getModesolverModel at h
  by_cases h1 : t.file_type = some "Gz"
  · rw [if_pos h1] at h
    cases e <;> cases f <;>
      simp [FileSys.createFile, FileSys.unlink, List.erase_cons_head] at h <;> tauto
  · rw [if_neg h1] at h
    by_cases h2 : t.file_type = some "Hdf5"
    · rw [if_pos h2] at h
      cases e <;> cases f <;>
        simp [FileSys.createFile, FileSys.unlink, List.erase_cons_head] at h <;> tauto
    · rw [if_neg h2] at h
      cases e <;> cases f <;> cases g <;>
        simp [FileSys.createFile, FileSys.unlink, List.erase_cons_head] at h <;> tauto

/-- C6: `get_modesolver` branches on `file_type`: "Gz" downloads the one
compressed archive and deserializes it directly; "Hdf5" downloads the one
uncompressed archive and deserializes it directly; any other value
downloads two separate artifacts — the solver's structural description and
the parent task's configuration — and merges them before deserialization;
in all three branches the reconstructed payload is persisted to the
caller-specified path `toFile`, as the final step before returning. -/
theorem c6_get_modesolver_branches_and_persist
    (t : TaskRecord) (toFile simFile : String) (fs : FileSys) :
    (t.file_type = some "Gz" →
      getModesolverModel t toFile simFile true true true fs =
        ([GmsEvent.mkstempEv tmpGzName,
          GmsEvent.downloadEv (t.solver_id.getD "") MODESOLVER_GZ tmpGzName,
          GmsEvent.unlinkEv tmpGzName, GmsEvent.persistEv toFile],
          Except.ok (Reconstructed.fromGzArchive (t.solver_id.getD "") MODESOLVER_GZ),
          fs.createFile toFile)) ∧
    (t.file_type = some "Hdf5" →
      getModesolverModel t toFile simFile true true true fs =
        ([GmsEvent.mkstempEv tmpHdf5Name,
          GmsEvent.downloadEv (t.solver_id.getD "") MODESOLVER_HDF5 tmpHdf5Name,
          GmsEvent.unlinkEv tmpHdf5Name, GmsEvent.persistEv toFile],
          Except.ok (Reconstructed.fromHdf5File (t.solver_id.getD "") MODESOLVER_HDF5),
          fs.createFile toFile)) ∧
    (t.file_type ≠ some "Gz" → t.file_type ≠ some "Hdf5" →
      getModesolverModel t toFile simFile true true true fs =
        ([GmsEvent.mkstempEv tmpJsonName,
          GmsEvent.downloadEv (t.solver_id.getD "") MODESOLVER_JSON tmpJsonName,
          GmsEvent.unlinkEv tmpJsonName,
          GmsEvent.downloadEv (t.task_id.getD "") SIMULATION_JSON simFile,
          GmsEvent.persistEv toFile],
          Except.ok (Reconstructed.mergedJson (t.solver_id.getD "") MODESOLVER_JSON
            (t.task_id.getD "") SIMULATION_JSON),
          (fs.createFile simFile).createFile toFile)) ∧
    (getModesolverModel t toFile simFile true true true fs).1.getLast? =
      some (GmsEvent.persistEv toFile) := by
  refine ⟨?_, ?_, ?_, ?_⟩
  · intro h1
    simp [getModesolverModel, h1, FileSys.createFile, FileSys.unlink, List.erase_cons_head]
  · intro h2
    have h1 : t.file_type ≠ some "Gz" := by rw [h2]; decide
    simp [getModesolverModel, h1, h2, FileSys.createFile, FileSys.unlink,
      List.erase_cons_head]
  · intro h1 h2
    simp [getModesolverModel, h1, h2, FileSys.createFile, FileSys.unlink,
      List.erase_cons_head]
  · by_cases h1 : t.file_type = some "Gz"
    · simp [getModesolverModel, h1]
    · by_cases h2 : t.file_type = some "Hdf5"
      · simp [getModesolverModel, h1, h2]
      · simp [getModesolverModel, h1, h2]

/-- Witness for C6 at a concrete record with file_type "Gz". -/
theorem c6_get_modesolver_witness :
    getModesolverModel
        ⟨some "tid", some "sid", none, none, none, some "Gz", some 3, []⟩
        "out.hdf5" "sim-out.hdf5" true true true ⟨["pre.txt"]⟩ =
      ([GmsEvent.mkstempEv tmpGzName,
        GmsEvent.downloadEv "sid" MODESOLVER_GZ tmpGzName,
        GmsEvent.unlinkEv tmpGzName, GmsEvent.persistEv "out.hdf5"],
        Except.ok (Reconstructed.fromGzArchive "sid" MODESOLVER_GZ),
        FileSys.createFile ⟨["pre.txt"]⟩ "out.hdf5") :=
  (c6_get_modesolver_branches_and_persist
      ⟨some "tid", some "sid", none, none, none, some "Gz", some 3, []⟩
      "out.hdf5" "sim-out.hdf5" ⟨["pre.txt"]⟩).1 rfl

/-- C7: no temporary file staged by `upload` or by `get_modesolver` remains
on the filesystem after the call returns, on every exit path — for every
combination of success and failure of the serialize, transfer, download and
parse steps, whether the call succeeds or raises — given that the temp path
was not already present and the caller-specified output paths are not temp
paths. -/
theorem c7_temp_files_never_leak
    (t : TaskRecord) (fs : FileSys) (toFile simFile : String)
    (a b c d e f g : Bool) (n : String)
    (hn : n ∈ tempNames) (hfresh : n ∉ fs.files)
    (hto : toFile ∉ tempNames) (hsim : simFile ∉ tempNames) :
    n ∉ (uploadModel a b c d fs).2.files ∧
    n ∉ (getModesolverModel t toFile simFile e f g fs).2.2.files := by
  constructor
  · rw [uploadModel_files]
    exact hfresh
  · intro hmem
    rcases getModesolverModel_files t toFile simFile e f g fs n hmem with h | h | h
    · exact hto (h ▸ hn)
    · exact hsim (h ▸ hn)
    · exact hfresh h

/-- Witness for C7 on an initially empty filesystem, with a failing transfer
in `upload` and a failing deserialization in `get_modesolver`: the staged
temp files are gone afterward. -/
theorem c7_temp_files_witness :
    tmpSimName ∉
      (uploadModel true false true true (FileSys.mk [])).2.files ∧
    tmpSimName ∉
      (getModesolverModel
        ⟨some "tid", some "sid", none, none, none, some "Gz", some 3, []⟩
        "out.hdf5" "sim-out.hdf5" true false true (FileSys.mk [])).2.2.files :=
  c7_temp_files_never_leak
    ⟨some "tid", some "sid", none, none, none, some "Gz", some 3, []⟩
    (FileSys.mk []) "out.hdf5" "sim-out.hdf5" true false true true true false true
    tmpSimName (by decide) (by decide) (by decide) (by decide)
